import Mathlib

/-!
Shallow embedding of the SkillBridge tutoring-marketplace backend
(Express + Prisma controllers) and proofs about its request handlers.

Each handler is modelled as a pure function from the authenticated user,
the parsed request data and the relevant database rows to an HTTP status
code together with the resulting database rows.  Database tables are
lists of records; a Prisma findUnique is List.find?, a create appends a
row, an update maps over the rows.  Zod schema validation is modelled as
a boolean predicate on the raw request body; fields whose only role is a
format check (UUID, ISO datetime, email) carry an explicit validity flag.
-/

/-- User roles, from the Prisma enum used throughout the controllers. -/
inductive Role where
  | STUDENT
  | TUTOR
  | ADMIN
deriving DecidableEq

/-- Account status used by the user table (ACTIVE or BANNED). -/
inductive UserStatus where
  | ACTIVE
  | BANNED
deriving DecidableEq

/-- Booking lifecycle status, per the Prisma enum. -/
inductive BookingStatus where
  | PENDING
  | CONFIRMED
  | REJECTED
  | CANCELLED
  | COMPLETED
deriving DecidableEq

/-- The four actions accepted by updateBookingStatusSchema
(z.enum of approve, reject, cancel, complete) in bookingController.ts. -/
inductive BookingAction where
  | approve
  | reject
  | cancel
  | complete
deriving DecidableEq

/-- The payload the auth middleware attaches to req.user:
userId and role (from the JWT). -/
structure AuthUser where
  userId : String
  role : Role
deriving DecidableEq

/-- A row of the Booking table, with the fields the booking and review
controllers read or write.  dateTime is the scheduled instant as an
integer timestamp. -/
structure Booking where
  id : String
  studentId : String
  tutorId : String
  status : BookingStatus
  dateTime : Int
  duration : ℚ
  subject : Option String
  notes : Option String
deriving DecidableEq

/-- Parsing of the action field by updateBookingStatusSchema:
the z.enum accepts exactly the four literals, anything else is a
ZodError. -/
def parseBookingAction (s : String) : Option BookingAction :=
  if s = "approve" then some .approve
  else if s = "reject" then some .reject
  else if s = "cancel" then some .cancel
  else if s = "complete" then some .complete
  else none

/-- The notes rewriting done by the reject and cancel branches of
updateBookingStatus: when a reason is given, append a tagged reason
block to the existing notes, otherwise keep the notes. -/
def appendReason (tag : String) (notes reason : Option String) : Option String :=
  match reason with
  | none => notes
  | some r =>
      some ((match notes with
             | some n => n ++ "\n\n"
             | none => "") ++ tag ++ "\n" ++ r)

/-- Result of the status-update switch: the HTTP status code and the
booking row after the request (unchanged when the request fails). -/
structure StatusUpdateResult where
  httpStatus : Nat
  booking : Booking
deriving DecidableEq

/-- The switch statement of updateBookingStatus in bookingController.ts
(lines 335-458), for an authenticated user userId acting on an existing
booking b at current time now.  Each branch first checks the permission
of the requester (403), then the current status (400); the complete
branch additionally rejects requests before the scheduled time (400).
On success the booking row is updated and 200 is returned. -/
def updateBookingStatusCore (userId : String) (b : Booking)
    (action : BookingAction) (reason : Option String) (now : Int) :
    StatusUpdateResult :=
  match action with
  | .approve =>
      if b.tutorId ≠ userId then ⟨403, b⟩
      else if b.status ≠ .PENDING then ⟨400, b⟩
      else ⟨200, { b with status := .CONFIRMED }⟩
  | .reject =>
      if b.tutorId ≠ userId then ⟨403, b⟩
      else if b.status ≠ .PENDING then ⟨400, b⟩
      else ⟨200, { b with status := .REJECTED,
                          notes := appendReason "[REJECTION REASON]" b.notes reason }⟩
  | .cancel =>
      if ¬ (b.studentId = userId) ∧ ¬ (b.tutorId = userId) then ⟨403, b⟩
      else if b.status ≠ .PENDING ∧ b.status ≠ .CONFIRMED then ⟨400, b⟩
      else ⟨200, { b with status := .CANCELLED,
                          notes := appendReason "[CANCELLATION REASON]" b.notes reason }⟩
  | .complete =>
      if b.tutorId ≠ userId then ⟨403, b⟩
      else if b.status ≠ .CONFIRMED then ⟨400, b⟩
      else if now < b.dateTime then ⟨400, b⟩
      else ⟨200, { b with status := .COMPLETED }⟩

/-- The full PATCH handler updateBookingStatus: 401 without req.user,
400 on a body whose action fails the z.enum, 404 when the booking id is
not found, otherwise the switch above.  Returns the HTTP status and the
bookings table after the request. -/
def updateBookingStatus (user : Option AuthUser) (id : String)
    (rawAction : String) (reason : Option String) (now : Int)
    (bookings : List Booking) : Nat × List Booking :=
  match user with
  | none => (401, bookings)
  | some u =>
      match parseBookingAction rawAction with
      | none => (400, bookings)
      | some action =>
          match bookings.find? (fun b => b.id = id) with
          | none => (404, bookings)
          | some b =>
              let r := updateBookingStatusCore u.userId b action reason now
              if r.httpStatus = 200 then
                (200, bookings.map (fun x => if x.id = id then r.booking else x))
              else
                (r.httpStatus, bookings)

/-- The five permitted (current status, action) edges of the booking
transition graph enforced by updateBookingStatusCore:
PENDING with approve, reject or cancel, CONFIRMED with cancel or
complete. -/
def isEdge (s : BookingStatus) (a : BookingAction) : Prop :=
  (s = .PENDING ∧ a = .approve) ∨
  (s = .PENDING ∧ a = .reject) ∨
  ((s = .PENDING ∨ s = .CONFIRMED) ∧ a = .cancel) ∨
  (s = .CONFIRMED ∧ a = .complete)

instance (s : BookingStatus) (a : BookingAction) : Decidable (isEdge s a) := by
  unfold isEdge; infer_instance

/-- Whether userId is the party entitled to issue the given action on
booking b: the tutor for approve, reject and complete, the student or
the tutor for cancel. -/
def entitledTo (userId : String) (b : Booking) (a : BookingAction) : Prop :=
  match a with
  | .approve => b.tutorId = userId
  | .reject => b.tutorId = userId
  | .cancel => b.studentId = userId ∨ b.tutorId = userId
  | .complete => b.tutorId = userId

instance (userId : String) (b : Booking) (a : BookingAction) :
    Decidable (entitledTo userId b a) := by
  unfold entitledTo; cases a <;> infer_instance

/-- The target status of each action. -/
def actionTarget (a : BookingAction) : BookingStatus :=
  match a with
  | .approve => .CONFIRMED
  | .reject => .REJECTED
  | .cancel => .CANCELLED
  | .complete => .COMPLETED

example :
    (updateBookingStatusCore "t" ⟨"b1", "s", "t", .PENDING, 0, 60, none, none⟩
      .approve none 0).httpStatus = 200 := by decide

example :
    (updateBookingStatusCore "s" ⟨"b1", "s", "t", .COMPLETED, 0, 60, none, none⟩
      .approve none 0).httpStatus = 403 := by decide

/-- A row of the Review table: the fields written by createReview in
reviewController.ts.  The rating is kept as a rational so that the
z.number input domain (and its integrality check) can be expressed. -/
structure Review where
  bookingId : String
  studentId : String
  tutorId : String
  rating : ℚ
  comment : Option String
deriving DecidableEq

/-- A row of the TutorProfile table, restricted to the fields the review
flow reads and writes: the owning userId, the cached average rating and
the cached review count. -/
structure TutorProfile where
  userId : String
  rating : ℚ
  reviewCount : Nat
deriving DecidableEq

/-- The raw body of POST /api/reviews.  bookingIdIsUuid records whether
the bookingId string passes the z.string().uuid() format check. -/
structure ReviewBody where
  bookingId : String
  bookingIdIsUuid : Bool
  rating : ℚ
  comment : Option String
deriving DecidableEq

/-- createReviewSchema from reviewController.ts: bookingId must be a
UUID and rating must be an integer between 1 and 5
(z.number().int().min(1).max(5)); the comment is optional. -/
def createReviewSchema (b : ReviewBody) : Prop :=
  b.bookingIdIsUuid = true ∧ b.rating.den = 1 ∧ 1 ≤ b.rating ∧ b.rating ≤ 5

instance (b : ReviewBody) : Decidable (createReviewSchema b) := by
  unfold createReviewSchema; infer_instance

/-- The database rows touched by the review flow. -/
structure ReviewDB where
  bookings : List Booking
  reviews : List Review
  profiles : List TutorProfile
deriving DecidableEq

/-- Result of the createReview handler: the HTTP status, the database
after the request, and the review included in a 201 response body. -/
structure CreateReviewResult where
  httpStatus : Nat
  db : ReviewDB
  created : Option Review
deriving DecidableEq

/-- The createReview handler of reviewController.ts (lines 19-138):
401 without req.user; 400 when the body fails createReviewSchema;
404 when the booking id is not found; 403 when the booking does not
belong to the requesting student; 400 when the booking is not COMPLETED;
400 when the booking already has a review.  Otherwise the review row is
inserted, the reviews of the tutor are re-read, and the tutor profile is
updated with their average rating (reduce of the ratings divided by the
count) and their count.  When the tutorProfile row is missing the Prisma
update throws after the review was already inserted, and the catch block
answers 500. -/
def createReview (user : Option AuthUser) (body : ReviewBody)
    (db : ReviewDB) : CreateReviewResult :=
  match user with
  | none => ⟨401, db, none⟩
  | some u =>
      if ¬ createReviewSchema body then ⟨400, db, none⟩
      else
        match db.bookings.find? (fun b => b.id = body.bookingId) with
        | none => ⟨404, db, none⟩
        | some booking =>
            if booking.studentId ≠ u.userId then ⟨403, db, none⟩
            else if booking.status ≠ .COMPLETED then ⟨400, db, none⟩
            else if db.reviews.any (fun r => r.bookingId = booking.id) then
              ⟨400, db, none⟩
            else
              let review : Review :=
                ⟨body.bookingId, u.userId, booking.tutorId, body.rating, body.comment⟩
              let reviews := db.reviews ++ [review]
              let tutorReviews := reviews.filter (fun r => r.tutorId = booking.tutorId)
              let avgRating : ℚ :=
                tutorReviews.foldl (fun sum r => sum + r.rating) 0 /
                  (tutorReviews.length : ℚ)
              if db.profiles.any (fun p => p.userId = booking.tutorId) then
                ⟨201,
                 ⟨db.bookings, reviews,
                  db.profiles.map (fun p =>
                    if p.userId = booking.tutorId then
                      { p with rating := avgRating, reviewCount := tutorReviews.length }
                    else p)⟩,
                 some review⟩
              else
                ⟨500, ⟨db.bookings, reviews, db.profiles⟩, none⟩

/-- The per-star counters built by getTutorReviews. -/
structure RatingDist where
  star1 : Nat
  star2 : Nat
  star3 : Nat
  star4 : Nat
  star5 : Nat
deriving DecidableEq

/-- The forEach body of getTutorReviews: increment the bucket indexed by
the rating of the review.  For a rating outside 1..5 the TypeScript
indexes a property the object does not have; that case never arises for
rows created through createReviewSchema, and the model leaves the
counters unchanged there. -/
def bumpRating (d : RatingDist) (r : Review) : RatingDist :=
  if r.rating = 1 then { d with star1 := d.star1 + 1 }
  else if r.rating = 2 then { d with star2 := d.star2 + 1 }
  else if r.rating = 3 then { d with star3 := d.star3 + 1 }
  else if r.rating = 4 then { d with star4 := d.star4 + 1 }
  else if r.rating = 5 then { d with star5 := d.star5 + 1 }
  else d

/-- Response body of GET /api/reviews/tutor/:tutorId. -/
structure TutorReviewsResult where
  httpStatus : Nat
  count : Nat
  avgRating : ℚ
  dist : RatingDist
deriving DecidableEq

/-- The getTutorReviews handler of reviewController.ts (lines 145-203):
fetch the reviews of the tutor, fold the rating distribution, and
compute avgRating as the reduce of the ratings over the count when there
is at least one review and 0 otherwise. -/
def getTutorReviews (tutorId : String) (reviews : List Review) :
    TutorReviewsResult :=
  let tutorReviews := reviews.filter (fun r => r.tutorId = tutorId)
  let dist := tutorReviews.foldl bumpRating ⟨0, 0, 0, 0, 0⟩
  let avgRating : ℚ :=
    if tutorReviews.length > 0 then
      tutorReviews.foldl (fun sum r => sum + r.rating) 0 /
        (tutorReviews.length : ℚ)
    else 0
  ⟨200, tutorReviews.length, avgRating, dist⟩

/-- The raw body of POST /api/auth/register.  emailIsValidEmail records
whether the email string passes the z.string().email() format check. -/
structure RegisterBody where
  email : String
  emailIsValidEmail : Bool
  password : String
  name : String
  role : String
deriving DecidableEq

/-- registerSchema from the auth controller: a valid email, a password
of at least 8 characters, a name of at least 2 characters, and a role
drawn from the z.enum of STUDENT and TUTOR. -/
def registerSchema (b : RegisterBody) : Prop :=
  b.emailIsValidEmail = true ∧ 8 ≤ b.password.length ∧ 2 ≤ b.name.length ∧
    (b.role = "STUDENT" ∨ b.role = "TUTOR")

instance (b : RegisterBody) : Decidable (registerSchema b) := by
  unfold registerSchema; infer_instance

/-- A row of the User table as written by register: the unique email,
the name, the stored (hashed) password and the role string. -/
structure RegUser where
  email : String
  name : String
  password : String
  role : String
deriving DecidableEq

/-- The register handler of the auth controller: 400 when the body
fails registerSchema, 400 when a user with the same email exists,
otherwise the user row is created with the validated role and 201 is
returned.  Returns the HTTP status and the users table after the
request. -/
def register (body : RegisterBody) (users : List RegUser) :
    Nat × List RegUser :=
  if ¬ registerSchema body then (400, users)
  else if users.any (fun u => u.email = body.email) then (400, users)
  else (201, users ++ [⟨body.email, body.name, body.password, body.role⟩])

/-- A row of the User table as read by createBooking: id, role, status
and the optional tutorProfile relation fetched by the include. -/
structure TutorUser where
  id : String
  role : Role
  status : UserStatus
  tutorProfile : Option TutorProfile
deriving DecidableEq

/-- The raw body of POST /api/bookings.  The flags record the
z.string().uuid() and z.string().datetime() format checks; dateTime is
the instant the datetime string denotes once parsed. -/
structure CreateBookingBody where
  tutorId : String
  tutorIdIsUuid : Bool
  dateTimeIsDatetime : Bool
  dateTime : Int
  duration : ℚ
  subject : Option String
  notes : Option String
deriving DecidableEq

/-- createBookingSchema from bookingController.ts: tutorId must be a
UUID, dateTime a datetime string, duration positive (defaulted to 60 by
zod before this check); subject and notes are optional. -/
def createBookingSchema (b : CreateBookingBody) : Prop :=
  b.tutorIdIsUuid = true ∧ b.dateTimeIsDatetime = true ∧ 0 < b.duration

instance (b : CreateBookingBody) : Decidable (createBookingSchema b) := by
  unfold createBookingSchema; infer_instance

/-- The createBooking handler of bookingController.ts (lines 29-121):
401 without req.user; 400 when the body fails createBookingSchema; 404
when the target user is missing, does not have role TUTOR or has no
tutorProfile; 400 with message "This tutor is not available" when the
target is BANNED; otherwise the booking row is inserted and 201 is
returned.  Modelled from the spec: the initial status PENDING of the
inserted row comes from the Prisma schema default, which is not among
the repository sources; the spec glossary lists PENDING as the first
booking status and the 201 message says the booking awaits tutor
approval. -/
def createBooking (user : Option AuthUser) (body : CreateBookingBody)
    (users : List TutorUser) (bookings : List Booking) (newId : String) :
    Nat × List Booking :=
  match user with
  | none => (401, bookings)
  | some u =>
      if ¬ createBookingSchema body then (400, bookings)
      else
        match users.find? (fun t => t.id = body.tutorId) with
        | none => (404, bookings)
        | some tutor =>
            if tutor.role ≠ .TUTOR ∨ tutor.tutorProfile = none then (404, bookings)
            else if tutor.status = .BANNED then (400, bookings)
            else
              (201, bookings ++
                [⟨newId, u.userId, body.tutorId, .PENDING, body.dateTime,
                  body.duration, body.subject, body.notes⟩])

/-- The getBookingById handler of bookingController.ts (lines 213-285):
401 without req.user, 404 when the id is not found, 403 with no booking
in the body when the requester is neither an ADMIN nor the student nor
the tutor of the booking, otherwise 200 with the booking. -/
def getBookingById (user : Option AuthUser) (id : String)
    (bookings : List Booking) : Nat × Option Booking :=
  match user with
  | none => (401, none)
  | some u =>
      match bookings.find? (fun b => b.id = id) with
      | none => (404, none)
      | some booking =>
          if u.role ≠ .ADMIN ∧ booking.studentId ≠ u.userId ∧
              booking.tutorId ≠ u.userId then
            (403, none)
          else
            (200, some booking)

/-- One issue of a ZodError: the path of the offending field and its
message. -/
structure ZodIssue where
  path : List String
  message : String
deriving DecidableEq

/-- The outcome of schema.parseAsync on a request body. -/
inductive ParseOutcome (α : Type) where
  | ok (value : α)
  | zodError (errors : List ZodIssue)
deriving DecidableEq

/-- The per-field detail entries built by the validate middleware. -/
structure FieldDetail where
  field : String
  message : String
deriving DecidableEq

/-- The validate middleware factory of middleware/validate.ts: on a
parse failure answer 400 with one detail entry per issue, the field
being the dot-joined path; on success pass through (none). -/
def validate {α : Type} (r : ParseOutcome α) :
    Option (Nat × List FieldDetail) :=
  match r with
  | .ok _ => none
  | .zodError errors =>
      some (400, errors.map (fun e =>
        ⟨String.intercalate "." e.path, e.message⟩))

/-- The roleGuard middleware factory: 401 when no user is attached to
the request, 403 when the role of the user is not among the allowed
roles, otherwise pass through (none). -/
def roleGuard (allowedRoles : List Role) (user : Option AuthUser) :
    Option Nat :=
  match user with
  | none => some 401
  | some u =>
      if ¬ allowedRoles.contains u.role then some 403
      else none

/-- An error reaching the catch block of a handler: either a ZodError
or any other thrown value, carried as its description. -/
inductive CaughtError where
  | zod (errors : List ZodIssue)
  | other (detail : String)
deriving DecidableEq

/-- The catch block shared by the controllers: a ZodError becomes 400
with the message of the first issue, anything else becomes 500 with the
fixed generic message of the handler, the detail going only to the
server log. -/
def handleCaught (genericMsg : String) (e : CaughtError) : Nat × String :=
  match e with
  | .zod errors => (400, (errors.headD ⟨[], ""⟩).message)
  | .other _ => (500, genericMsg)

/-- The reduce over ratings used by both review handlers is the sum of
the mapped ratings. -/
theorem foldl_rating_sum (l : List Review) (init : ℚ) :
    l.foldl (fun sum r => sum + r.rating) init =
      init + (l.map (fun r => r.rating)).sum := by
  induction l generalizing init with
  | nil => simp
  | cons a t ih => simp [ih, add_assoc]

/-- C1 counterexample: an approve request by the student on a COMPLETED
booking has a (status, action) pair outside the four edges, yet the
handler answers 403 (the permission check fires before the status
check), not the HTTP 400 the claim states for every non-edge request. -/
theorem c1_counterexample :
    ¬ isEdge BookingStatus.COMPLETED BookingAction.approve ∧
    (updateBookingStatusCore "s"
        ⟨"b1", "s", "t", .COMPLETED, 0, 60, none, none⟩
        .approve none 0).httpStatus ≠ 400 ∧
    (updateBookingStatusCore "s"
        ⟨"b1", "s", "t", .COMPLETED, 0, 60, none, none⟩
        .approve none 0).httpStatus = 403 := by
  decide

/-- C1 (amended): a status update succeeds (200) only along the four
edges, issued by the entitled party, and then moves the booking to the
target status of the action; every request whose (status, action) pair
is not an edge leaves the booking unchanged and is rejected with 400
when the requester is the party entitled to the action and with 403
otherwise. -/
theorem c1_booking_transitions (userId : String) (b : Booking)
    (action : BookingAction) (reason : Option String) (now : Int) :
    ((updateBookingStatusCore userId b action reason now).httpStatus = 200 →
       isEdge b.status action ∧ entitledTo userId b action ∧
       (updateBookingStatusCore userId b action reason now).booking.status =
         actionTarget action) ∧
    (¬ isEdge b.status action →
       (updateBookingStatusCore userId b action reason now).booking = b ∧
       (if entitledTo userId b action then
          (updateBookingStatusCore userId b action reason now).httpStatus = 400
        else
          (updateBookingStatusCore userId b action reason now).httpStatus = 403)) := by
  cases action <;> cases hs : b.status <;>
    simp [updateBookingStatusCore, isEdge, entitledTo, actionTarget, hs] <;>
    split_ifs <;> simp_all <;> tauto

/-- Witness for c1_booking_transitions: a tutor approval of a PENDING
booking succeeds and lands on CONFIRMED. -/
theorem c1_booking_transitions_witness :
    isEdge BookingStatus.PENDING BookingAction.approve ∧
    entitledTo "t"
      (⟨"b1", "s", "t", .PENDING, 0, 60, none, none⟩ : Booking) .approve ∧
    (updateBookingStatusCore "t"
        ⟨"b1", "s", "t", .PENDING, 0, 60, none, none⟩
        .approve none 0).booking.status = actionTarget .approve :=
  (c1_booking_transitions "t"
    ⟨"b1", "s", "t", .PENDING, 0, 60, none, none⟩ .approve none 0).1 (by decide)

/-- C4: a complete action by the tutor of a CONFIRMED booking is
rejected with 400 and leaves the booking unchanged while the current
time is before the scheduled dateTime, and succeeds with 200, moving
the booking to COMPLETED, at or after the scheduled dateTime. -/
theorem c4_complete_requires_time (userId : String) (b : Booking)
    (reason : Option String) (now : Int)
    (htutor : b.tutorId = userId) (hstatus : b.status = .CONFIRMED) :
    (now < b.dateTime →
       updateBookingStatusCore userId b .complete reason now = ⟨400, b⟩) ∧
    (b.dateTime ≤ now →
       updateBookingStatusCore userId b .complete reason now =
         ⟨200, { b with status := .COMPLETED }⟩) := by
  constructor <;> intro h <;>
    simp [updateBookingStatusCore, htutor, hstatus, h, not_lt.mpr h]

/-- Witness for c4_complete_requires_time: at now = 5 a booking
scheduled for 10 cannot be completed, at now = 10 it can. -/
theorem c4_complete_requires_time_witness :
    updateBookingStatusCore "t"
        (⟨"b1", "s", "t", .CONFIRMED, 10, 60, none, none⟩ : Booking)
        .complete none 5 =
      ⟨400, ⟨"b1", "s", "t", .CONFIRMED, 10, 60, none, none⟩⟩ ∧
    updateBookingStatusCore "t"
        (⟨"b1", "s", "t", .CONFIRMED, 10, 60, none, none⟩ : Booking)
        .complete none 10 =
      ⟨200, ⟨"b1", "s", "t", .COMPLETED, 10, 60, none, none⟩⟩ :=
  ⟨(c4_complete_requires_time "t"
      ⟨"b1", "s", "t", .CONFIRMED, 10, 60, none, none⟩ none 5
      (by decide) (by decide)).1 (by decide),
   (c4_complete_requires_time "t"
      ⟨"b1", "s", "t", .CONFIRMED, 10, 60, none, none⟩ none 10
      (by decide) (by decide)).2 (by decide)⟩

/-- C2: for an authenticated request with a schema-valid body,
createReview inserts a review exactly when the booking exists, belongs
to the requesting student, is COMPLETED and has no review yet; a
missing booking answers 404, a foreign booking 403, a non-COMPLETED or
already-reviewed booking 400, and on each of these failures the
database (reviews and tutor profiles included) is unchanged. -/
theorem c2_create_review_guards (u : AuthUser) (body : ReviewBody)
    (db : ReviewDB) (hv : createReviewSchema body) :
    ((∃ rev, (createReview (some u) body db).db.reviews = db.reviews ++ [rev]) ↔
       (∃ b, db.bookings.find? (fun x => x.id = body.bookingId) = some b ∧
          b.studentId = u.userId ∧ b.status = .COMPLETED ∧
          db.reviews.any (fun rv => rv.bookingId = b.id) = false)) ∧
    (db.bookings.find? (fun x => x.id = body.bookingId) = none →
       (createReview (some u) body db).httpStatus = 404 ∧
       (createReview (some u) body db).db = db) ∧
    (∀ b, db.bookings.find? (fun x => x.id = body.bookingId) = some b →
       b.studentId ≠ u.userId →
       (createReview (some u) body db).httpStatus = 403 ∧
       (createReview (some u) body db).db = db) ∧
    (∀ b, db.bookings.find? (fun x => x.id = body.bookingId) = some b →
       b.studentId = u.userId → b.status ≠ .COMPLETED →
       (createReview (some u) body db).httpStatus = 400 ∧
       (createReview (some u) body db).db = db) ∧
    (∀ b, db.bookings.find? (fun x => x.id = body.bookingId) = some b →
       b.studentId = u.userId → b.status = .COMPLETED →
       db.reviews.any (fun rv => rv.bookingId = b.id) = true →
       (createReview (some u) body db).httpStatus = 400 ∧
       (createReview (some u) body db).db = db) := by
  have hv' : ¬ ¬ createReviewSchema body := not_not_intro hv
  cases hfind : db.bookings.find? (fun x => x.id = body.bookingId) with
  | none => simp [createReview, hv', hfind]
  | some b =>
      by_cases hown : b.studentId = u.userId
      · by_cases hdone : b.status = BookingStatus.COMPLETED
        · by_cases hrev : db.reviews.any (fun rv => rv.bookingId = b.id) = true
          · simp [createReview, hv', hfind, hown, hdone, hrev]
            simpa using hrev
          · by_cases hp : db.profiles.any (fun p => p.userId = b.tutorId) = true <;>
              simp [createReview, hv', hfind, hown, hdone, hrev, hp] <;>
              simpa using hrev
        · simp [createReview, hv', hfind, hown, hdone]
      · simp [createReview, hv', hfind, hown]

/-- Witness for c2_create_review_guards: with one COMPLETED, unreviewed
booking of student s the insertion condition is met, so a review row is
appended. -/
theorem c2_create_review_guards_witness :
    (∃ rev,
      (createReview (some ⟨"s", .STUDENT⟩) ⟨"b1", true, 5, none⟩
          ⟨[⟨"b1", "s", "t", .COMPLETED, 0, 60, none, none⟩], [],
           [⟨"t", 0, 0⟩]⟩).db.reviews = [] ++ [rev]) :=
  (c2_create_review_guards ⟨"s", .STUDENT⟩ ⟨"b1", true, 5, none⟩
      ⟨[⟨"b1", "s", "t", .COMPLETED, 0, 60, none, none⟩], [], [⟨"t", 0, 0⟩]⟩
      (by decide)).1.mpr
    ⟨⟨"b1", "s", "t", .COMPLETED, 0, 60, none, none⟩, by decide, by decide,
      by decide, by decide⟩

/-- C3: immediately after a successful (201) createReview call, the
profile of the tutor of the created review carries as rating the
arithmetic mean of the ratings of all stored reviews of that tutor (the
new review included) and as reviewCount their number. -/
theorem c3_avg_rating_recomputed (u : AuthUser) (body : ReviewBody)
    (db : ReviewDB) (h : (createReview (some u) body db).httpStatus = 201) :
    ∃ rev, (createReview (some u) body db).created = some rev ∧
      (∃ p ∈ (createReview (some u) body db).db.profiles,
         p.userId = rev.tutorId) ∧
      ∀ p ∈ (createReview (some u) body db).db.profiles,
        p.userId = rev.tutorId →
        p.rating =
          (((createReview (some u) body db).db.reviews.filter
              (fun r => r.tutorId = rev.tutorId)).map (fun r => r.rating)).sum /
            ((((createReview (some u) body db).db.reviews.filter
                (fun r => r.tutorId = rev.tutorId)).length : ℚ)) ∧
        p.reviewCount =
          ((createReview (some u) body db).db.reviews.filter
              (fun r => r.tutorId = rev.tutorId)).length := by
  by_cases hvv : createReviewSchema body
  · have hv' := not_not_intro hvv
    cases hfind : db.bookings.find? (fun x => x.id = body.bookingId) with
    | none => simp [createReview, hv', hfind] at h
    | some b =>
        by_cases hown : b.studentId = u.userId
        · by_cases hdone : b.status = BookingStatus.COMPLETED
          · by_cases hrev : db.reviews.any (fun rv => rv.bookingId = b.id) = true
            · simp [createReview, hv', hfind, hown, hdone, hrev] at h
            · by_cases hp : db.profiles.any (fun p => p.userId = b.tutorId) = true
              · simp [createReview, hv', hfind, hown, hdone, hrev, hp]
                refine ⟨?_, ?_⟩
                · obtain ⟨q, hq, hq2⟩ := List.any_eq_true.mp hp
                  simp only [decide_eq_true_eq] at hq2
                  exact ⟨q, hq, by simp [hq2]⟩
                · intro a ha hau
                  by_cases hcase : a.userId = b.tutorId
                  · simp [hcase, foldl_rating_sum]
                  · simp [hcase] at hau
              · simp [createReview, hv', hfind, hown, hdone, hrev, hp] at h
          · simp [createReview, hv', hfind, hown, hdone] at h
        · simp [createReview, hv', hfind, hown] at h
  · simp [createReview, hvv] at h

/-- Witness for c3_avg_rating_recomputed: a first 4-star review of
tutor t on a COMPLETED booking. -/
theorem c3_avg_rating_recomputed_witness :
    ∃ rev,
      (createReview (some ⟨"s", Role.STUDENT⟩) ⟨"b1", true, 4, none⟩
          ⟨[⟨"b1", "s", "t", .COMPLETED, 0, 60, none, none⟩], [],
           [⟨"t", 0, 0⟩]⟩).created = some rev ∧
      (∃ p ∈ (createReview (some ⟨"s", Role.STUDENT⟩) ⟨"b1", true, 4, none⟩
          ⟨[⟨"b1", "s", "t", .COMPLETED, 0, 60, none, none⟩], [],
           [⟨"t", 0, 0⟩]⟩).db.profiles,
         p.userId = rev.tutorId) ∧
      ∀ p ∈ (createReview (some ⟨"s", Role.STUDENT⟩) ⟨"b1", true, 4, none⟩
          ⟨[⟨"b1", "s", "t", .COMPLETED, 0, 60, none, none⟩], [],
           [⟨"t", 0, 0⟩]⟩).db.profiles,
        p.userId = rev.tutorId →
        p.rating =
          (((createReview (some ⟨"s", Role.STUDENT⟩) ⟨"b1", true, 4, none⟩
              ⟨[⟨"b1", "s", "t", .COMPLETED, 0, 60, none, none⟩], [],
               [⟨"t", 0, 0⟩]⟩).db.reviews.filter
              (fun r => r.tutorId = rev.tutorId)).map (fun r => r.rating)).sum /
            ((((createReview (some ⟨"s", Role.STUDENT⟩) ⟨"b1", true, 4, none⟩
                ⟨[⟨"b1", "s", "t", .COMPLETED, 0, 60, none, none⟩], [],
                 [⟨"t", 0, 0⟩]⟩).db.reviews.filter
                (fun r => r.tutorId = rev.tutorId)).length : ℚ)) ∧
        p.reviewCount =
          ((createReview (some ⟨"s", Role.STUDENT⟩) ⟨"b1", true, 4, none⟩
              ⟨[⟨"b1", "s", "t", .COMPLETED, 0, 60, none, none⟩], [],
               [⟨"t", 0, 0⟩]⟩).db.reviews.filter
              (fun r => r.tutorId = rev.tutorId)).length :=
  c3_avg_rating_recomputed ⟨"s", Role.STUDENT⟩ ⟨"b1", true, 4, none⟩
    ⟨[⟨"b1", "s", "t", .COMPLETED, 0, 60, none, none⟩], [], [⟨"t", 0, 0⟩]⟩
    (by decide)

/-- C6: a createReview request whose rating is below 1, above 5 or not
an integer is rejected with 400 (validation error) and leaves the
database, hence the set of reviews, unchanged. -/
theorem c6_rating_validation (u : AuthUser) (body : ReviewBody)
    (db : ReviewDB)
    (hbad : ¬ (body.rating.den = 1 ∧ 1 ≤ body.rating ∧ body.rating ≤ 5)) :
    createReview (some u) body db = ⟨400, db, none⟩ := by
  have hschema : ¬ createReviewSchema body := by
    unfold createReviewSchema
    tauto
  simp [createReview, hschema]

/-- Witness for c6_rating_validation: a rating of 6 is rejected. -/
theorem c6_rating_validation_witness :
    createReview (some ⟨"s", Role.STUDENT⟩) ⟨"b1", true, 6, none⟩
        ⟨[⟨"b1", "s", "t", .COMPLETED, 0, 60, none, none⟩], [], [⟨"t", 0, 0⟩]⟩ =
      ⟨400, ⟨[⟨"b1", "s", "t", .COMPLETED, 0, 60, none, none⟩], [], [⟨"t", 0, 0⟩]⟩,
       none⟩ :=
  c6_rating_validation ⟨"s", Role.STUDENT⟩ ⟨"b1", true, 6, none⟩
    ⟨[⟨"b1", "s", "t", .COMPLETED, 0, 60, none, none⟩], [], [⟨"t", 0, 0⟩]⟩
    (by decide)

/-- C7: on an existing booking, getBookingById answers 403 with no
booking data when the requester is neither an ADMIN nor the student nor
the tutor of the booking, and 200 with the booking when the requester
is the student, the tutor or an ADMIN. -/
theorem c7_booking_access (u : AuthUser) (id : String)
    (bookings : List Booking) (b : Booking)
    (hfind : bookings.find? (fun x => x.id = id) = some b) :
    ((u.role ≠ .ADMIN ∧ b.studentId ≠ u.userId ∧ b.tutorId ≠ u.userId) →
       getBookingById (some u) id bookings = (403, none)) ∧
    ((u.role = .ADMIN ∨ b.studentId = u.userId ∨ b.tutorId = u.userId) →
       getBookingById (some u) id bookings = (200, some b)) := by
  constructor <;> intro h <;> simp [getBookingById, hfind] <;> tauto

/-- Witness for c7_booking_access: an unrelated student is turned away
with 403, the tutor of the booking gets the row with 200. -/
theorem c7_booking_access_witness :
    getBookingById (some ⟨"x", Role.STUDENT⟩) "b1"
        [⟨"b1", "s", "t", .PENDING, 0, 60, none, none⟩] = (403, none) ∧
    getBookingById (some ⟨"t", Role.TUTOR⟩) "b1"
        [⟨"b1", "s", "t", .PENDING, 0, 60, none, none⟩] =
      (200, some ⟨"b1", "s", "t", .PENDING, 0, 60, none, none⟩) :=
  ⟨(c7_booking_access ⟨"x", Role.STUDENT⟩ "b1"
      [⟨"b1", "s", "t", .PENDING, 0, 60, none, none⟩]
      ⟨"b1", "s", "t", .PENDING, 0, 60, none, none⟩ (by decide)).1 (by decide),
   (c7_booking_access ⟨"t", Role.TUTOR⟩ "b1"
      [⟨"b1", "s", "t", .PENDING, 0, 60, none, none⟩]
      ⟨"b1", "s", "t", .PENDING, 0, 60, none, none⟩ (by decide)).2 (by decide)⟩

/-- Folding bumpRating over reviews whose ratings all lie in 1..5 grows
the total of the five counters by exactly the number of reviews. -/
theorem bumpRating_total (l : List Review) (d : RatingDist)
    (h : ∀ r ∈ l, r.rating = 1 ∨ r.rating = 2 ∨ r.rating = 3 ∨
           r.rating = 4 ∨ r.rating = 5) :
    (l.foldl bumpRating d).star1 + (l.foldl bumpRating d).star2 +
      (l.foldl bumpRating d).star3 + (l.foldl bumpRating d).star4 +
      (l.foldl bumpRating d).star5 =
    d.star1 + d.star2 + d.star3 + d.star4 + d.star5 + l.length := by
  induction l generalizing d with
  | nil => simp
  | cons a t ih =>
      have ha := h a (List.mem_cons_self a t)
      have ht : ∀ r ∈ t, r.rating = 1 ∨ r.rating = 2 ∨ r.rating = 3 ∨
          r.rating = 4 ∨ r.rating = 5 :=
        fun r hr => h r (List.mem_cons_of_mem a hr)
      rcases ha with ha | ha | ha | ha | ha <;>
        simp [List.foldl_cons, ih _ ht, bumpRating, ha] <;> omega

/-- C8: getTutorReviews always produces a total avgRating: 0 for a
tutor with no reviews, the arithmetic mean of the ratings otherwise;
and, since stored ratings lie in 1..5, the five ratingDistribution
counters sum to the number of reviews. -/
theorem c8_tutor_reviews_totals (tutorId : String) (reviews : List Review)
    (hr : ∀ r ∈ reviews.filter (fun x => x.tutorId = tutorId),
        r.rating = 1 ∨ r.rating = 2 ∨ r.rating = 3 ∨ r.rating = 4 ∨
          r.rating = 5) :
    ((getTutorReviews tutorId reviews).count = 0 →
       (getTutorReviews tutorId reviews).avgRating = 0) ∧
    (0 < (getTutorReviews tutorId reviews).count →
       (getTutorReviews tutorId reviews).avgRating =
         ((reviews.filter (fun x => x.tutorId = tutorId)).map
             (fun r => r.rating)).sum /
           (((getTutorReviews tutorId reviews).count : ℚ))) ∧
    (getTutorReviews tutorId reviews).dist.star1 +
      (getTutorReviews tutorId reviews).dist.star2 +
      (getTutorReviews tutorId reviews).dist.star3 +
      (getTutorReviews tutorId reviews).dist.star4 +
      (getTutorReviews tutorId reviews).dist.star5 =
    (getTutorReviews tutorId reviews).count := by
  refine ⟨?_, ?_, ?_⟩
  · intro h0
    simp only [getTutorReviews] at h0 ⊢
    simp [h0]
  · intro hpos
    simp only [getTutorReviews] at hpos ⊢
    simp [foldl_rating_sum, hpos]
  · simpa [getTutorReviews] using bumpRating_total _ ⟨0, 0, 0, 0, 0⟩ hr

/-- Witness for c8_tutor_reviews_totals: two reviews of tutor t with
ratings 3 and 5. -/
theorem c8_tutor_reviews_totals_witness :
    ((getTutorReviews "t"
        [⟨"b1", "s", "t", 3, none⟩, ⟨"b2", "s2", "t", 5, none⟩]).count = 0 →
       (getTutorReviews "t"
        [⟨"b1", "s", "t", 3, none⟩, ⟨"b2", "s2", "t", 5, none⟩]).avgRating = 0) ∧
    (0 < (getTutorReviews "t"
        [⟨"b1", "s", "t", 3, none⟩, ⟨"b2", "s2", "t", 5, none⟩]).count →
       (getTutorReviews "t"
          [⟨"b1", "s", "t", 3, none⟩, ⟨"b2", "s2", "t", 5, none⟩]).avgRating =
         (([⟨"b1", "s", "t", 3, none⟩, ⟨"b2", "s2", "t", 5, none⟩].filter
             (fun x => Review.tutorId x = "t")).map (fun r => r.rating)).sum /
           (((getTutorReviews "t"
              [⟨"b1", "s", "t", 3, none⟩, ⟨"b2", "s2", "t", 5, none⟩]).count : ℚ))) ∧
    (getTutorReviews "t"
        [⟨"b1", "s", "t", 3, none⟩, ⟨"b2", "s2", "t", 5, none⟩]).dist.star1 +
      (getTutorReviews "t"
        [⟨"b1", "s", "t", 3, none⟩, ⟨"b2", "s2", "t", 5, none⟩]).dist.star2 +
      (getTutorReviews "t"
        [⟨"b1", "s", "t", 3, none⟩, ⟨"b2", "s2", "t", 5, none⟩]).dist.star3 +
      (getTutorReviews "t"
        [⟨"b1", "s", "t", 3, none⟩, ⟨"b2", "s2", "t", 5, none⟩]).dist.star4 +
      (getTutorReviews "t"
        [⟨"b1", "s", "t", 3, none⟩, ⟨"b2", "s2", "t", 5, none⟩]).dist.star5 =
    (getTutorReviews "t"
        [⟨"b1", "s", "t", 3, none⟩, ⟨"b2", "s2", "t", 5, none⟩]).count :=
  c8_tutor_reviews_totals "t"
    [⟨"b1", "s", "t", 3, none⟩, ⟨"b2", "s2", "t", 5, none⟩] (by decide)

/-- C9: register rejects with 400, creating no user, every request
whose role is neither STUDENT nor TUTOR (ADMIN included); and every
user row the handler can add carries role STUDENT or TUTOR, so no ADMIN
user is ever created through registration. -/
theorem c9_register_roles (body : RegisterBody) (users : List RegUser) :
    ((body.role ≠ "STUDENT" ∧ body.role ≠ "TUTOR") →
       register body users = (400, users)) ∧
    (∀ u ∈ (register body users).2,
       u ∈ users ∨ u.role = "STUDENT" ∨ u.role = "TUTOR") := by
  constructor
  · intro hrole
    have hschema : ¬ registerSchema body := by
      unfold registerSchema
      tauto
    simp [register, hschema]
  · intro u hu
    by_cases hschema : registerSchema body
    · by_cases hdup : users.any (fun x => x.email = body.email) = true
      · simp [register, not_not_intro hschema, hdup] at hu
        exact Or.inl hu
      · simp [register, not_not_intro hschema, hdup] at hu
        rcases hu with hu | hu
        · exact Or.inl hu
        · subst hu
          exact Or.inr hschema.2.2.2
    · simp [register, hschema] at hu
      exact Or.inl hu

/-- Witness for c9_register_roles: a registration with role ADMIN is
rejected with 400 and the users table stays empty. -/
theorem c9_register_roles_witness :
    register ⟨"a@b.c", true, "password1", "Al", "ADMIN"⟩ [] = (400, []) :=
  (c9_register_roles ⟨"a@b.c", true, "password1", "Al", "ADMIN"⟩ []).1
    (by decide)

/-- C10: for an authenticated, schema-valid request, createBooking
answers 404 and inserts nothing when the target user is missing, is not
a TUTOR or has no tutor profile, answers 400 and inserts nothing when
the target tutor is BANNED, and answers 201 exactly when the target is
an existing non-banned TUTOR with a profile, inserting one booking with
initial status PENDING. -/
theorem c10_create_booking_guards (u : AuthUser) (body : CreateBookingBody)
    (users : List TutorUser) (bookings : List Booking) (newId : String)
    (hv : createBookingSchema body) :
    (users.find? (fun t => t.id = body.tutorId) = none →
       createBooking (some u) body users bookings newId = (404, bookings)) ∧
    (∀ t, users.find? (fun x => x.id = body.tutorId) = some t →
       (t.role ≠ .TUTOR ∨ t.tutorProfile = none) →
       createBooking (some u) body users bookings newId = (404, bookings)) ∧
    (∀ t, users.find? (fun x => x.id = body.tutorId) = some t →
       t.role = .TUTOR → t.tutorProfile ≠ none → t.status = .BANNED →
       createBooking (some u) body users bookings newId = (400, bookings)) ∧
    ((createBooking (some u) body users bookings newId).1 = 201 ↔
       ∃ t, users.find? (fun x => x.id = body.tutorId) = some t ∧
         t.role = .TUTOR ∧ t.tutorProfile ≠ none ∧ t.status ≠ .BANNED) ∧
    ((createBooking (some u) body users bookings newId).1 = 201 →
       (createBooking (some u) body users bookings newId).2 =
         bookings ++
           [⟨newId, u.userId, body.tutorId, .PENDING, body.dateTime,
             body.duration, body.subject, body.notes⟩]) := by
  have hv' := not_not_intro hv
  cases hfind : users.find? (fun x => x.id = body.tutorId) with
  | none => simp [createBooking, hv', hfind]
  | some t =>
      by_cases hrt : t.role = Role.TUTOR
      · by_cases hpf : t.tutorProfile = none
        · simp [createBooking, hv', hfind, hrt, hpf]
        · by_cases hban : t.status = UserStatus.BANNED
          · simp [createBooking, hv', hfind, hrt, hpf, hban]
          · simp [createBooking, hv', hfind, hrt, hpf, hban]
      · simp [createBooking, hv', hfind, hrt]

/-- Witness for c10_create_booking_guards: booking an active tutor with
a profile succeeds with 201 and appends a PENDING booking row. -/
theorem c10_create_booking_guards_witness :
    (createBooking (some ⟨"s", Role.STUDENT⟩)
        ⟨"t", true, true, 100, 60, none, none⟩
        [⟨"t", .TUTOR, .ACTIVE, some ⟨"t", 0, 0⟩⟩] [] "b1").1 = 201 ∧
    (createBooking (some ⟨"s", Role.STUDENT⟩)
        ⟨"t", true, true, 100, 60, none, none⟩
        [⟨"t", .TUTOR, .ACTIVE, some ⟨"t", 0, 0⟩⟩] [] "b1").2 =
      [] ++ [⟨"b1", "s", "t", .PENDING, 100, 60, none, none⟩] := by
  have hmain := c10_create_booking_guards ⟨"s", Role.STUDENT⟩
    ⟨"t", true, true, 100, 60, none, none⟩
    [⟨"t", .TUTOR, .ACTIVE, some ⟨"t", 0, 0⟩⟩] [] "b1" (by decide)
  have h201 : (createBooking (some ⟨"s", Role.STUDENT⟩)
      ⟨"t", true, true, 100, 60, none, none⟩
      [⟨"t", .TUTOR, .ACTIVE, some ⟨"t", 0, 0⟩⟩] [] "b1").1 = 201 :=
    hmain.2.2.2.1.mpr
      ⟨⟨"t", .TUTOR, .ACTIVE, some ⟨"t", 0, 0⟩⟩, by decide, by decide,
       by decide, by decide⟩
  exact ⟨h201, hmain.2.2.2.2 h201⟩

/-- C5: the uniform error-status mapping of the embedded middleware and
handlers: a body failing schema validation yields 400 with one detail
entry per field issue (validate middleware), a request without a user
yields 401 (roleGuard and every embedded handler), a disallowed role
yields 403 (roleGuard), a missing referenced resource yields 404
(booking and review handlers), and any other caught failure yields 500
with the fixed generic handler message, the error detail not reaching
the body. -/
theorem c5_uniform_error_mapping :
    (∀ (α : Type) (errors : List ZodIssue),
       validate (α := α) (.zodError errors) =
         some (400, errors.map (fun e =>
           ⟨String.intercalate "." e.path, e.message⟩))) ∧
    (∀ (allowed : List Role), roleGuard allowed none = some 401) ∧
    (∀ (allowed : List Role) (u : AuthUser),
       allowed.contains u.role = false →
       roleGuard allowed (some u) = some 403) ∧
    (∀ (msg detail : String), handleCaught msg (.other detail) = (500, msg)) ∧
    (∀ (msg : String) (errors : List ZodIssue),
       (handleCaught msg (.zod errors)).1 = 400) ∧
    (∀ id rawAction reason now bookings,
       (updateBookingStatus none id rawAction reason now bookings).1 = 401) ∧
    (∀ body db, (createReview none body db).httpStatus = 401) ∧
    (∀ body users bookings newId,
       (createBooking none body users bookings newId).1 = 401) ∧
    (∀ id bookings, (getBookingById none id bookings).1 = 401) ∧
    (∀ (u : AuthUser) id rawAction reason now bookings (a : BookingAction),
       parseBookingAction rawAction = some a →
       bookings.find? (fun b => b.id = id) = none →
       (updateBookingStatus (some u) id rawAction reason now bookings).1 = 404) ∧
    (∀ (u : AuthUser) body db, createReviewSchema body →
       db.bookings.find? (fun b => b.id = body.bookingId) = none →
       (createReview (some u) body db).httpStatus = 404) := by
  refine ⟨fun α errors => rfl, fun allowed => rfl, ?_, fun msg detail => rfl,
    fun msg errors => rfl, fun id rawAction reason now bookings => rfl,
    fun body db => rfl, fun body users bookings newId => rfl,
    fun id bookings => rfl, ?_, ?_⟩
  · intro allowed u h
    simp [roleGuard, h]
    simpa using h
  · intro u id rawAction reason now bookings a hparse hfind
    simp [updateBookingStatus, hparse, hfind]
  · intro u body db hvv hfind
    simp [createReview, not_not_intro hvv, hfind]

/-- Witness for c5_uniform_error_mapping: a student hitting an
ADMIN-only guard gets 403, a non-Zod failure becomes 500 with the
generic message, and an update of a missing booking id gets 404. -/
theorem c5_uniform_error_mapping_witness :
    roleGuard [Role.ADMIN] (some ⟨"u1", Role.STUDENT⟩) = some 403 ∧
    handleCaught "Failed to create booking" (.other "connection lost") =
      (500, "Failed to create booking") ∧
    (updateBookingStatus (some ⟨"u1", Role.TUTOR⟩) "missing" "approve"
        none 0 []).1 = 404 :=
  ⟨c5_uniform_error_mapping.2.2.1 [Role.ADMIN] ⟨"u1", Role.STUDENT⟩
     (by decide),
   c5_uniform_error_mapping.2.2.2.1 "Failed to create booking"
     "connection lost",
   c5_uniform_error_mapping.2.2.2.2.2.2.2.2.2.1 ⟨"u1", Role.TUTOR⟩
     "missing" "approve" none 0 [] .approve (by decide) (by decide)⟩


